import Mathlib

/-!
Verification of `src/detour.rs` of the `detour` repository: a TLS
ClientHello fragmenting write wrapper.  Byte buffers are modelled as
`List Nat`; every fallible computation of the Rust source (unchecked
slice indexing, `split_at`, `usize` underflow) is modelled in the
`Option` monad, where `none` means the Rust code panics.  `u16` casts
truncate modulo 65536, matching `as u16` in the source.
-/

namespace DetourModel

/-- Result of an asynchronous write poll (`Poll<tokio::io::Result<usize>>`):
`ready n` is `Poll::Ready(Ok(n))`, `pending` is `Poll::Pending`, and
`err e` is `Poll::Ready(Err(e))` with the io error abstracted to a number. -/
inductive PollW where
  | ready (n : Nat)
  | pending
  | err (e : Nat)
deriving DecidableEq, Repr

/-- The `DetourState` enum from the source: `Normal`,
`SendFirst(first, second)`, `SendSecond(second, first_written)`. -/
inductive DetourState where
  | normal
  | sendFirst (first second : List Nat)
  | sendSecond (second : List Nat) (written : Nat)
deriving DecidableEq, Repr

/-- Observable outcome of a single `poll_write` call: the state afterwards,
the value returned to the caller, the list of physical writes issued to the
underlying sink during the call (each entry the exact buffer passed to the
sink's `poll_write`), and whether `wake_by_ref` was invoked. -/
structure StepOut where
  state : DetourState
  out : PollW
  writes : List (List Nat)
  wake : Bool
deriving DecidableEq, Repr

/-- The nested helper `u16_at` of `find_sni`: big-endian `u16` read of
`data[at]`, `data[at + 1]`; `none` when either index panics. -/
def u16_at (data : List Nat) (at0 : Nat) : Option Nat :=
  match data[at0]?, data[at0 + 1]? with
  | some hi, some lo => some (hi * 256 + lo)
  | _, _ => none

/-- The `while offset < ext_end` loop of `find_sni`, iterating over
`(type, length, data)` extension triples.  The Rust loop has no fuel; here
`fuel` only bounds the iteration count to make the recursion structural.
Each iteration advances `offset` by at least 4, so with the initial fuel
`ext_end + 1` supplied by `find_sni`, fuel can never run out before
`offset < ext_end` fails; the fuel-0 branch is unreachable from `find_sni`.
Result: `none` = the Rust code panics (out-of-bounds read), `some none` =
the loop ends and `find_sni` returns `None`, `some (some k)` = `Some(k)`. -/
def find_sni_loop (data : List Nat) : Nat → Nat → Nat → Option (Option Nat)
  | 0, _, _ => none
  | fuel + 1, offset, extEnd =>
    if offset < extEnd then
      match u16_at data offset with
      | none => none
      | some t =>
        if t = 0 then
          -- extension_type == server_name: offset += 2; read sni_len;
          -- return Some(offset + sni_len / 2)
          match u16_at data (offset + 2) with
          | none => none
          | some sniLen => some (some (offset + 2 + sniLen / 2))
        else
          -- offset += 2; offset += 2 + u16_at(data, offset)
          match u16_at data (offset + 2) with
          | none => none
          | some l => find_sni_loop data fuel (offset + 2 + 2 + l) extEnd
    else
      some none

/-- The `find_sni` function: skips `legacy_session_id`, `cipher_suites`,
`legacy_compression_methods`, then scans the extension list.
`none` = panic (unchecked index out of bounds), `some none` = `None`,
`some (some k)` = `Some(k)`. -/
def find_sni (data : List Nat) : Option (Option Nat) :=
  -- let mut offset = 5 + 4 + 2 + 32;
  match data[5 + 4 + 2 + 32]? with
  | none => none
  | some sid =>
    -- offset += 1 + data[offset]  (legacy_session_id)
    let o1 := 5 + 4 + 2 + 32 + 1 + sid
    match u16_at data o1 with
    | none => none
    | some cs =>
      -- offset += 2 + u16_at(data, offset)  (cipher_suites)
      let o2 := o1 + 2 + cs
      match data[o2]? with
      | none => none
      | some cm =>
        -- offset += 1 + data[offset]  (legacy_compression_methods)
        let o3 := o2 + 1 + cm
        match u16_at data o3 with
        | none => none
        | some el =>
          -- ext_end = offset + 2 + u16_at(data, offset); offset += 2
          let extEnd := o3 + 2 + el
          find_sni_loop data (extEnd + 1) (o3 + 2) extEnd

/-- The `is_hello` function: `data[0] == 0x16 && data[5] == 0x01` with
Rust short-circuit `&&` and unchecked indexing; `none` = index panic. -/
def is_hello (data : List Nat) : Option Bool :=
  match data[0]? with
  | none => none
  | some b0 =>
    if b0 = 0x16 then
      match data[5]? with
      | none => none
      | some b5 => some (b5 == 0x01)
    else
      some false

/-- Body of `fragmentate` after the split point `mid` is fixed:
`data.split_at(mid)` (panics when `mid > len`), rewrite of the first
fragment's length bytes at indices 3 and 4 (`left.len() - 5` underflows and
the indexing panics when `mid < 5`), and construction of the second record
`[data[0], data[1], data[2], hi, lo] ++ right`. -/
def fragmentate_at (data : List Nat) (mid : Nat) : Option (List Nat × List Nat) :=
  if data.length < mid then none
  else if mid < 5 then none
  else
    let left := data.take mid
    let szF := (mid - 5) % 65536
    let first := (left.set 3 (szF / 256)).set 4 (szF % 256)
    let right := data.drop mid
    let szS := right.length % 65536
    let second := data.getD 0 0 :: data.getD 1 0 :: data.getD 2 0 ::
      szS / 256 :: szS % 256 :: right
    some (first, second)

/-- The `fragmentate` function:
`let mid = find_sni(data).unwrap_or(5 + (data.len() - 5) / 2)` followed by
the split.  `find_sni(data)` is evaluated first (a panic there propagates);
the `unwrap_or` argument is evaluated next and `data.len() - 5` underflows
when `data.len() < 5`. -/
def fragmentate (data : List Nat) : Option (List Nat × List Nat) :=
  match find_sni data with
  | none => none
  | some r =>
    if data.length < 5 then none
    else fragmentate_at data (r.getD (5 + (data.length - 5) / 2))

/-- One call of `Detour::poll_write`.  The sink is modelled as a function
from the buffer passed to its `poll_write` to the result it returns during
this call.  `none` = the wrapper itself panics (inside `is_hello` or
`fragmentate`). -/
def poll_write (st : DetourState) (buf : List Nat) (sink : List Nat → PollW) :
    Option StepOut :=
  match is_hello buf with
  | none => none
  | some false =>
    -- passthrough: return self.sock().poll_write(cx, buf)
    some ⟨st, sink buf, [buf], false⟩
  | some true =>
    match st with
    | DetourState.normal =>
      -- fragment and store; Poll::Pending, no sink call, no wake
      match fragmentate buf with
      | none => none
      | some (f, s) => some ⟨DetourState.sendFirst f s, PollW.pending, [], false⟩
    | DetourState.sendFirst f s =>
      match sink f with
      | PollW.ready n =>
        some ⟨DetourState.sendSecond s n, PollW.pending, [f], true⟩
      | PollW.pending => some ⟨DetourState.sendFirst f s, PollW.pending, [f], false⟩
      | PollW.err e => some ⟨DetourState.sendFirst f s, PollW.err e, [f], false⟩
    | DetourState.sendSecond s w =>
      match sink s with
      | PollW.ready n => some ⟨DetourState.normal, PollW.ready (w + n), [s], false⟩
      | PollW.pending => some ⟨DetourState.sendSecond s w, PollW.pending, [s], false⟩
      | PollW.err e => some ⟨DetourState.sendSecond s w, PollW.err e, [s], false⟩

/-- Drives `poll_write` the way the async caller contract prescribes:
re-invoke with the same buffer while the result is `pending`, up to `fuel`
polls, accumulating in order every physical write issued to the sink.
`none` = a poll panicked or `fuel` ran out before completion. -/
def drive : Nat → DetourState → List Nat → (List Nat → PollW) →
    Option (DetourState × PollW × List (List Nat))
  | 0, _, _, _ => none
  | fuel + 1, st, buf, sink =>
    match poll_write st buf sink with
    | none => none
    | some o =>
      match o.out with
      | PollW.pending =>
        match drive fuel o.state buf sink with
        | none => none
        | some (st2, r, ws) => some (st2, r, o.writes ++ ws)
      | r => some (o.state, r, o.writes)

/-- A sink that immediately accepts every write in full, reporting the
full length of the buffer handed to it. -/
def readySink : List Nat → PollW := fun b => PollW.ready b.length

/-- The 11 bytes of the hostname "example.com". -/
def sniHost : List Nat := [101, 120, 97, 109, 112, 108, 101, 46, 99, 111, 109]

/-- A synthesized 72-byte ClientHello record carrying a `server_name`
extension with hostname "example.com".  Layout (0-based offsets):
0-4 record header, 5-8 handshake header, 9-10 legacy version,
11-42 random, 43 session-id length (0), 44-47 cipher suites,
48-49 compression methods, 50-51 extensions length (20),
52-53 extension type (0 = server_name), 54-55 extension data length (16),
56-57 server-name-list length (14), 58 name type (0),
59-60 hostname length (11), 61-71 hostname bytes. -/
def exampleHello : List Nat :=
  [0x16, 3, 1, 0, 67] ++ [1, 0, 0, 63] ++ [3, 3] ++ List.replicate 32 0 ++
  [0] ++ [0, 2, 0x13, 1] ++ [1, 0] ++ [0, 20] ++
  [0, 0] ++ [0, 16] ++ [0, 14] ++ [0] ++ [0, 11] ++ sniHost

/-- A 49-byte ClientHello-detected record whose extension block is empty:
session-id length 0 at offset 43, cipher-suites length 0 at 44-45,
compression length 0 at 46, extensions length 0 at 47-48, so the extension
scan finds nothing and `find_sni` returns `None`. -/
def helloNoExt : List Nat :=
  0x16 :: 0 :: 0 :: 0 :: 0 :: 1 :: List.replicate 43 0

/-- First fragment produced from `helloNoExt` (midpoint split at 27):
original first 27 bytes with length bytes rewritten to 22. -/
def helloNoExtFirst : List Nat :=
  0x16 :: 0 :: 0 :: 0 :: 22 :: 1 :: List.replicate 21 0

/-- Second fragment produced from `helloNoExt`: fresh header copying content
type and version, length 22, then the remaining 22 payload bytes. -/
def helloNoExtSecond : List Nat :=
  0x16 :: 0 :: 0 :: 0 :: 22 :: List.replicate 22 0

end DetourModel

/-! ## Theorems -/

namespace DetourModel

/-- C1: the claim states that `is_hello` returns false, without panicking,
on every buffer that is not a ClientHello, including the empty buffer and
buffers of length at most 5.  The code indexes `data[0]` and `data[5]`
unchecked: it panics (`none` in the model) on the empty buffer and on any
buffer of length 1 to 5 whose first byte is 0x16, contradicting the claim;
short-circuit evaluation does return `some false` when `data[0]` is not
0x16, and buffers with `len > 5` behave as claimed. -/
theorem c1_is_hello_panics_on_short_input :
    is_hello [] = none ∧
    is_hello [0x16, 3, 1, 0, 0] = none ∧
    is_hello [0, 3, 1, 0, 0] = some false ∧
    is_hello [0x16, 3, 1, 0, 0, 1] = some true ∧
    is_hello [0x16, 3, 1, 0, 0, 2] = some false := by
  decide

/-- C2: the claim states that `find_sni` bounds-checks all offset
arithmetic and returns `None` on any access that would fall outside the
buffer.  The code performs unchecked indexed reads: on the 6-byte buffer
`[0x16, 3, 1, 0, 1, 1]` — which `is_hello` accepts — it reads `data[43]`
and panics (`none` in the model) instead of returning `None`. -/
theorem c2_find_sni_panics_out_of_bounds :
    is_hello [0x16, 3, 1, 0, 1, 1] = some true ∧
    find_sni [0x16, 3, 1, 0, 1, 1] = none := by
  decide

/-- C9: for every buffer on which `is_hello` evaluates to false, and in
every state, `poll_write` issues exactly one physical write carrying the
byte-identical buffer, returns the sink result unchanged, keeps the state
unchanged, and does not wake the task. -/
theorem c9_passthrough (st : DetourState) (buf : List Nat)
    (sink : List Nat → PollW) (h : is_hello buf = some false) :
    poll_write st buf sink = some ⟨st, sink buf, [buf], false⟩ := by
  unfold poll_write
  rw [h]

/-- Witness for C9 at a concrete non-hello buffer and an immediate sink. -/
theorem c9_passthrough_w :
    is_hello [0] = some false ∧
    poll_write (DetourState.sendFirst [1] [2]) [0] (fun b => PollW.ready b.length) =
      some ⟨DetourState.sendFirst [1] [2], PollW.ready 1, [[0]], false⟩ :=
  ⟨by decide,
   c9_passthrough (DetourState.sendFirst [1] [2]) [0]
     (fun b => PollW.ready b.length) (by decide)⟩

end DetourModel

namespace DetourModel

/-- C8: for every hello buffer (so the in-flight fragment write is in fact
issued), if the sink's poll on the in-flight fragment does not complete
(`pending` or an error), `poll_write` returns that sink result to the
caller unchanged and leaves the state — the stored fragment buffers and the
bytes-reported-so-far count — exactly as it was, in both the `sendFirst`
and the `sendSecond` state. -/
theorem c8_error_pending_preserve_state (buf f s : List Nat) (w : Nat)
    (sink : List Nat → PollW) (h : is_hello buf = some true)
    (h1 : ∀ n, sink f ≠ PollW.ready n) (h2 : ∀ n, sink s ≠ PollW.ready n) :
    poll_write (DetourState.sendFirst f s) buf sink =
      some ⟨DetourState.sendFirst f s, sink f, [f], false⟩ ∧
    poll_write (DetourState.sendSecond s w) buf sink =
      some ⟨DetourState.sendSecond s w, sink s, [s], false⟩ := by
  constructor
  · cases hsf : sink f with
    | ready n => exact absurd hsf (h1 n)
    | pending => simp only [poll_write, h, hsf]
    | err e => simp only [poll_write, h, hsf]
  · cases hss : sink s with
    | ready n => exact absurd hss (h2 n)
    | pending => simp only [poll_write, h, hss]
    | err e => simp only [poll_write, h, hss]

/-- Witness for C8: a concrete hello buffer, concrete fragments, and a sink
that always reports pending. -/
theorem c8_error_pending_preserve_state_w :
    is_hello [0x16, 3, 1, 0, 0, 1] = some true ∧
    (poll_write (DetourState.sendFirst [1] [2]) [0x16, 3, 1, 0, 0, 1]
        (fun _ => PollW.pending) =
      some ⟨DetourState.sendFirst [1] [2], PollW.pending, [[1]], false⟩ ∧
    poll_write (DetourState.sendSecond [2] 7) [0x16, 3, 1, 0, 0, 1]
        (fun _ => PollW.pending) =
      some ⟨DetourState.sendSecond [2] 7, PollW.pending, [[2]], false⟩) :=
  ⟨by decide,
   c8_error_pending_preserve_state [0x16, 3, 1, 0, 0, 1] [1] [2] 7
     (fun _ => PollW.pending) (by decide)
     (fun n hn => PollW.noConfusion hn) (fun n hn => PollW.noConfusion hn)⟩

/-- C10: on a hello buffer in state `normal`, `poll_write` only stores the
fragment pair and returns pending: it issues no physical write and does not
invoke the waker; in contrast, the `sendFirst` to `sendSecond` transition
(sink completes the first fragment) calls `wake_by_ref` before returning
pending. -/
theorem c10_normal_transition_silent (buf f s : List Nat) (n : Nat)
    (sink : List Nat → PollW) (h : is_hello buf = some true)
    (hf : fragmentate buf = some (f, s)) (hr : sink f = PollW.ready n) :
    poll_write DetourState.normal buf sink =
      some ⟨DetourState.sendFirst f s, PollW.pending, [], false⟩ ∧
    poll_write (DetourState.sendFirst f s) buf sink =
      some ⟨DetourState.sendSecond s n, PollW.pending, [f], true⟩ := by
  constructor
  · simp only [poll_write, h, hf]
  · simp only [poll_write, h, hr]

/-- Witness for C10 on the concrete extension-free hello record and the
immediately-accepting sink. -/
theorem c10_normal_transition_silent_w :
    is_hello helloNoExt = some true ∧
    fragmentate helloNoExt = some (helloNoExtFirst, helloNoExtSecond) ∧
    readySink helloNoExtFirst = PollW.ready 27 ∧
    (poll_write DetourState.normal helloNoExt readySink =
      some ⟨DetourState.sendFirst helloNoExtFirst helloNoExtSecond,
        PollW.pending, [], false⟩ ∧
    poll_write (DetourState.sendFirst helloNoExtFirst helloNoExtSecond)
        helloNoExt readySink =
      some ⟨DetourState.sendSecond helloNoExtSecond 27,
        PollW.pending, [helloNoExtFirst], true⟩) :=
  ⟨by decide, by decide, by decide,
   c10_normal_transition_silent helloNoExt helloNoExtFirst helloNoExtSecond 27
     readySink (by decide) (by decide) (by decide)⟩

/-- C5 counterexample: the claim says that in state `SendFirst` a call to
`write(buf)` ignores `buf` entirely and writes the stored first fragment,
for every buffer `buf`.  But `poll_write` tests `is_hello(buf)` before
looking at the state: with the stored fragments `[1]`, `[2]` and the
non-hello buffer `[0]`, the call passes `[0]` through to the sink — the one
physical write is `[0]`, not the stored first fragment `[1]`. -/
theorem c5_counterexample :
    poll_write (DetourState.sendFirst [1] [2]) [0] readySink =
      some ⟨DetourState.sendFirst [1] [2], PollW.ready 1, [[0]], false⟩ ∧
    [[0]] ≠ [([1] : List Nat)] := by
  decide

/-- C5 amended: in state `SendFirst{first, second}`, for every buffer on
which `is_hello` is true, `poll_write` writes the stored `first` fragment
to the sink; the outcome is the same for any two hello buffers (nothing is
re-fragmented and no split point is re-derived from `buf`); and when the
sink reports pending the state is kept, so the next hello invocation
retries the identical `first` fragment. -/
theorem c5_sendfirst_ignores_hello_buf (f s buf : List Nat)
    (sink : List Nat → PollW) (h : is_hello buf = some true) :
    (∃ o, poll_write (DetourState.sendFirst f s) buf sink = some o ∧
      o.writes = [f]) ∧
    (∀ buf2, is_hello buf2 = some true →
      poll_write (DetourState.sendFirst f s) buf2 sink =
        poll_write (DetourState.sendFirst f s) buf sink) ∧
    (sink f = PollW.pending →
      poll_write (DetourState.sendFirst f s) buf sink =
        some ⟨DetourState.sendFirst f s, PollW.pending, [f], false⟩) := by
  refine ⟨?_, ?_, ?_⟩
  · cases hsf : sink f with
    | ready n =>
      exact ⟨⟨DetourState.sendSecond s n, PollW.pending, [f], true⟩,
        by simp only [poll_write, h, hsf], rfl⟩
    | pending =>
      exact ⟨⟨DetourState.sendFirst f s, PollW.pending, [f], false⟩,
        by simp only [poll_write, h, hsf], rfl⟩
    | err e =>
      exact ⟨⟨DetourState.sendFirst f s, PollW.err e, [f], false⟩,
        by simp only [poll_write, h, hsf], rfl⟩
  · intro buf2 h2
    simp only [poll_write, h, h2]
  · intro hp
    simp only [poll_write, h, hp]

/-- Witness for C5's amended theorem at concrete fragments, a concrete
hello buffer and a sink that stays pending. -/
theorem c5_sendfirst_ignores_hello_buf_w :
    is_hello [0x16, 3, 1, 0, 0, 1] = some true ∧
    ((∃ o, poll_write (DetourState.sendFirst [1] [2]) [0x16, 3, 1, 0, 0, 1]
        (fun _ => PollW.pending) = some o ∧ o.writes = [[1]]) ∧
    (∀ buf2, is_hello buf2 = some true →
      poll_write (DetourState.sendFirst [1] [2]) buf2 (fun _ => PollW.pending) =
        poll_write (DetourState.sendFirst [1] [2]) [0x16, 3, 1, 0, 0, 1]
          (fun _ => PollW.pending)) ∧
    (PollW.pending = PollW.pending →
      poll_write (DetourState.sendFirst [1] [2]) [0x16, 3, 1, 0, 0, 1]
        (fun _ => PollW.pending) =
      some ⟨DetourState.sendFirst [1] [2], PollW.pending, [[1]], false⟩)) :=
  ⟨by decide,
   c5_sendfirst_ignores_hello_buf [1] [2] [0x16, 3, 1, 0, 0, 1]
     (fun _ => PollW.pending) (by decide)⟩

end DetourModel

namespace DetourModel

theorem is_hello_length (data : List Nat) (h : is_hello data = some true) :
    5 < data.length := by
  by_contra hlen
  have h5 : data[5]? = none := List.getElem?_eq_none (by omega)
  unfold is_hello at h
  cases h0 : data[0]? with
  | none => simp [h0] at h
  | some b0 =>
    simp only [h0, h5] at h
    split at h <;> simp_all

theorem fragmentate_at_eq (data : List Nat) (mid : Nat) (h5 : 5 ≤ mid)
    (hle : mid ≤ data.length) :
    fragmentate_at data mid = some
      (((data.take mid).set 3 ((mid - 5) % 65536 / 256)).set 4
          ((mid - 5) % 65536 % 256),
       data.getD 0 0 :: data.getD 1 0 :: data.getD 2 0 ::
         ((data.length - mid) % 65536 / 256) ::
         ((data.length - mid) % 65536 % 256) :: data.drop mid) := by
  unfold fragmentate_at
  rw [if_neg (by omega), if_neg (by omega)]
  simp [List.length_drop]

theorem fragmentate_at_bounds (data : List Nat) (mid : Nat)
    (p : List Nat × List Nat) (h : fragmentate_at data mid = some p) :
    5 ≤ mid ∧ mid ≤ data.length := by
  unfold fragmentate_at at h
  split at h
  next => exact absurd h (by simp)
  next h1 =>
    split at h
    next => exact absurd h (by simp)
    next h2 => omega

theorem fragmentate_some (data f s : List Nat)
    (h : fragmentate data = some (f, s)) :
    ∃ mid, 5 ≤ mid ∧ mid ≤ data.length ∧
      f = ((data.take mid).set 3 ((mid - 5) % 65536 / 256)).set 4
            ((mid - 5) % 65536 % 256) ∧
      s = data.getD 0 0 :: data.getD 1 0 :: data.getD 2 0 ::
            ((data.length - mid) % 65536 / 256) ::
            ((data.length - mid) % 65536 % 256) :: data.drop mid := by
  unfold fragmentate at h
  cases hf : find_sni data with
  | none => rw [hf] at h; exact absurd h (by simp)
  | some r =>
    rw [hf] at h
    simp only at h
    split at h
    next => exact absurd h (by simp)
    next h5 =>
      obtain ⟨hb1, hb2⟩ :=
        fragmentate_at_bounds data (r.getD (5 + (data.length - 5) / 2)) (f, s) h
      rw [fragmentate_at_eq data (r.getD (5 + (data.length - 5) / 2)) hb1 hb2] at h
      simp only [Option.some.injEq, Prod.mk.injEq] at h
      exact ⟨r.getD (5 + (data.length - 5) / 2), hb1, hb2, h.1.symm, h.2.symm⟩

theorem frag_lengths (data f s : List Nat)
    (h : fragmentate data = some (f, s)) :
    f.length + s.length = data.length + 5 := by
  obtain ⟨mid, h1, h2, hf, hs⟩ := fragmentate_some data f s h
  subst hf hs
  simp only [List.length_set, List.length_take, List.length_cons,
    List.length_drop]
  rw [Nat.min_eq_left h2]
  omega

theorem fragmentate_of_find_sni_none (data : List Nat)
    (hn : find_sni data = some none) (h5 : ¬ data.length < 5) :
    fragmentate data = fragmentate_at data (5 + (data.length - 5) / 2) := by
  simp only [fragmentate, hn, Option.getD_none, if_neg h5]

theorem drive_step_pending (fuel : Nat) (st : DetourState) (buf : List Nat)
    (sink : List Nat → PollW) (st2 : DetourState) (ws : List (List Nat))
    (wk : Bool)
    (h : poll_write st buf sink = some ⟨st2, PollW.pending, ws, wk⟩) :
    drive (fuel + 1) st buf sink =
      match drive fuel st2 buf sink with
      | none => none
      | some (st3, r, ws2) => some (st3, r, ws ++ ws2) := by
  simp only [drive, h]

theorem drive_step_done (fuel : Nat) (st : DetourState) (buf : List Nat)
    (sink : List Nat → PollW) (st2 : DetourState) (n : Nat)
    (ws : List (List Nat)) (wk : Bool)
    (h : poll_write st buf sink = some ⟨st2, PollW.ready n, ws, wk⟩) :
    drive (fuel + 1) st buf sink = some (st2, PollW.ready n, ws) := by
  simp only [drive, h]

/-- C7: for every buffer accepted by the hello detector on which the SNI
scan completes with "not found", the splitter splits at the byte-count
midpoint of the payload — the first fragment is exactly the first
`5 + (len - 5) / 2` bytes (with its length field rewritten) and the second
fragment's payload is the rest — so a split point always exists. -/
theorem c7_midpoint_fallback (data : List Nat)
    (hh : is_hello data = some true) (hn : find_sni data = some none) :
    ∃ f s, fragmentate data = some (f, s) ∧
      f.length = 5 + (data.length - 5) / 2 ∧
      s.drop 5 = data.drop (5 + (data.length - 5) / 2) := by
  have h6 := is_hello_length data hh
  have hdiv := Nat.div_le_self (data.length - 5) 2
  have hfrag := (fragmentate_of_find_sni_none data hn (by omega)).trans
    (fragmentate_at_eq data (5 + (data.length - 5) / 2) (by omega) (by omega))
  refine ⟨_, _, hfrag, ?_, ?_⟩
  · simp only [List.length_set, List.length_take]
    omega
  · rfl

/-- Witness for C7 on the concrete extension-free hello record. -/
theorem c7_midpoint_fallback_w :
    is_hello helloNoExt = some true ∧ find_sni helloNoExt = some none ∧
    (∃ f s, fragmentate helloNoExt = some (f, s) ∧
      f.length = 5 + (helloNoExt.length - 5) / 2 ∧
      s.drop 5 = helloNoExt.drop (5 + (helloNoExt.length - 5) / 2)) :=
  ⟨by decide, by decide,
   c7_midpoint_fallback helloNoExt (by decide) (by decide)⟩

/-- C4: writing a hello buffer that fragments successfully through the
wrapper against a sink that immediately accepts every write in full takes
three polls of the same logical write: the wrapper issues exactly two
physical writes — the first fragment, then the second — and the logical
write completes reporting `first.length + second.length`, which equals the
original length plus 5 (one duplicated record header). -/
theorem c4_two_writes_report_len_plus_5 (buf f s : List Nat)
    (hh : is_hello buf = some true) (hf : fragmentate buf = some (f, s)) :
    drive 3 DetourState.normal buf readySink =
      some (DetourState.normal, PollW.ready (buf.length + 5), [f, s]) := by
  have hlen := frag_lengths buf f s hf
  have s1 : poll_write DetourState.normal buf readySink =
      some ⟨DetourState.sendFirst f s, PollW.pending, [], false⟩ := by
    simp only [poll_write, hh, hf]
  have s2 : poll_write (DetourState.sendFirst f s) buf readySink =
      some ⟨DetourState.sendSecond s f.length, PollW.pending, [f], true⟩ := by
    simp only [poll_write, hh, readySink]
  have s3 : poll_write (DetourState.sendSecond s f.length) buf readySink =
      some ⟨DetourState.normal, PollW.ready (f.length + s.length), [s],
        false⟩ := by
    simp only [poll_write, hh, readySink]
  have d1 : drive 1 (DetourState.sendSecond s f.length) buf readySink =
      some (DetourState.normal, PollW.ready (f.length + s.length), [s]) :=
    drive_step_done 0 _ buf readySink _ _ _ _ s3
  have d2 : drive 2 (DetourState.sendFirst f s) buf readySink =
      some (DetourState.normal, PollW.ready (f.length + s.length),
        [f] ++ [s]) := by
    have h2 := drive_step_pending 1 (DetourState.sendFirst f s) buf readySink
      (DetourState.sendSecond s f.length) [f] true s2
    rw [d1] at h2
    exact h2
  have d3 : drive 3 DetourState.normal buf readySink =
      some (DetourState.normal, PollW.ready (f.length + s.length),
        [] ++ ([f] ++ [s])) := by
    have h3 := drive_step_pending 2 DetourState.normal buf readySink
      (DetourState.sendFirst f s) [] false s1
    rw [d2] at h3
    exact h3
  rw [hlen] at d3
  simpa using d3

/-- Witness for C4: a 49-byte hello record against the immediate sink
reports 54 bytes across exactly the two fragment writes. -/
theorem c4_two_writes_report_len_plus_5_w :
    is_hello helloNoExt = some true ∧
    fragmentate helloNoExt = some (helloNoExtFirst, helloNoExtSecond) ∧
    drive 3 DetourState.normal helloNoExt readySink =
      some (DetourState.normal, PollW.ready 54,
        [helloNoExtFirst, helloNoExtSecond]) :=
  ⟨by decide, by decide,
   c4_two_writes_report_len_plus_5 helloNoExt helloNoExtFirst
     helloNoExtSecond (by decide) (by decide)⟩

end DetourModel

namespace DetourModel

/-- C6 counterexample: in `exampleHello` the hostname "example.com" starts
at offset 61 (it is the tail of the buffer), so the claimed split offset
"offset of the hostname bytes plus half the hostname length" is
61 + 11 / 2 = 66; but `find_sni` returns 62 — it adds half of the whole
extension data length (16) to the offset of the extension's length field
(54), not half of the hostname length to the hostname offset. -/
theorem c6_counterexample :
    List.drop 61 exampleHello = sniHost ∧
    find_sni exampleHello = some (some 62) ∧
    ¬ (62 : Nat) = 61 + sniHost.length / 2 := by
  decide

/-- C6 amended: whenever the extension scan stands at a `server_name`
extension (type field reads 0, data length field reads `sniLen`, still
inside the extension block), `find_sni` returns the offset of the
extension's 2-byte length field plus `sniLen / 2`, i.e.
`offset + 2 + sniLen / 2`; for the synthesized ClientHello with hostname
"example.com" (extension data length 16, length field at 54, hostname bytes
at 61..71) the returned offset 62 still lies strictly between the first and
last byte of the hostname. -/
theorem c6_split_at_ext_length_offset (data : List Nat)
    (fuel offset extEnd sniLen : Nat) (h1 : offset < extEnd)
    (h2 : u16_at data offset = some 0)
    (h3 : u16_at data (offset + 2) = some sniLen) :
    find_sni_loop data (fuel + 1) offset extEnd =
      some (some (offset + 2 + sniLen / 2)) ∧
    find_sni exampleHello = some (some 62) ∧
    List.drop 61 exampleHello = sniHost ∧ 61 < 62 ∧ 62 < 71 := by
  refine ⟨?_, by decide, by decide, by decide, by decide⟩
  simp only [find_sni_loop, if_pos h1, h2]
  simp [h3]

/-- Witness for C6's amended theorem: the scan state of `exampleHello` at
its `server_name` extension (offset 52, extension end 72, data length 16). -/
theorem c6_split_at_ext_length_offset_w :
    (52 < 72 ∧ u16_at exampleHello 52 = some 0 ∧
      u16_at exampleHello (52 + 2) = some 16) ∧
    (find_sni_loop exampleHello (0 + 1) 52 72 =
        some (some (52 + 2 + 16 / 2)) ∧
      find_sni exampleHello = some (some 62) ∧
      List.drop 61 exampleHello = sniHost ∧ 61 < 62 ∧ 62 < 71) :=
  ⟨⟨by decide, by decide, by decide⟩,
   c6_split_at_ext_length_offset exampleHello 0 52 72 16
     (by decide) (by decide) (by decide)⟩

end DetourModel

namespace DetourModel

theorem drop_of_set_lt (l : List Nat) (i : Nat) (a : Nat) (n : Nat)
    (h : i < n) : (l.set i a).drop n = l.drop n := by
  apply List.ext_getElem?
  intro k
  rw [List.getElem?_drop, List.getElem?_drop, List.getElem?_set_ne (by omega)]

theorem getD_set_self_of_lt (l : List Nat) (i : Nat) (a d : Nat)
    (h : i < l.length) : (l.set i a).getD i d = a := by
  rw [List.getD_eq_getElem?_getD, List.getElem?_set_self',
    List.getElem?_eq_getElem h]
  rfl

theorem getD_set_ne (l : List Nat) (i j : Nat) (a d : Nat) (h : i ≠ j) :
    (l.set i a).getD j d = l.getD j d := by
  rw [List.getD_eq_getElem?_getD, List.getD_eq_getElem?_getD,
    List.getElem?_set_ne h]

theorem getD_take_of_lt (l : List Nat) (n i : Nat) (d : Nat) (h : i < n) :
    (l.take n).getD i d = l.getD i d := by
  rw [List.getD_eq_getElem?_getD, List.getD_eq_getElem?_getD,
    List.getElem?_take_of_lt h]

/-- C3 counterexample: the 6-byte buffer `[0x16, 3, 1, 0, 1, 1]` satisfies
the claim's hypotheses (`len > 5`, `b[0] = 0x16`, `b[5] = 0x01`) but
`fragmentate` panics inside `find_sni` (modelled as `none`) instead of
yielding two records. -/
theorem c3_counterexample :
    ([0x16, 3, 1, 0, 1, 1] : List Nat).length > 5 ∧
    ([0x16, 3, 1, 0, 1, 1] : List Nat).getD 0 0 = 0x16 ∧
    ([0x16, 3, 1, 0, 1, 1] : List Nat).getD 5 0 = 0x01 ∧
    fragmentate [0x16, 3, 1, 0, 1, 1] = none := by
  decide

/-- C3 amended: for every buffer with `len > 5`, `b[0] = 0x16` and
`b[5] = 0x01` on which `fragmentate` succeeds (does not panic), and whose
fragment payload lengths fit in a `u16`, the concatenation of the two
fragments' payloads is byte-for-byte the original payload, each record's
2-byte big-endian length field equals its actual payload length, and both
records carry the original content type byte and legacy version bytes. -/
theorem c3_split_preserves_payload (data f s : List Nat)
    (hlen : 5 < data.length) (h0 : data.getD 0 0 = 0x16)
    (h5 : data.getD 5 0 = 0x01)
    (hfs : fragmentate data = some (f, s))
    (hF : f.length - 5 < 65536) (hS : s.length - 5 < 65536) :
    f.drop 5 ++ s.drop 5 = data.drop 5 ∧
    f.getD 3 0 * 256 + f.getD 4 0 = f.length - 5 ∧
    s.getD 3 0 * 256 + s.getD 4 0 = s.length - 5 ∧
    f.getD 0 0 = data.getD 0 0 ∧ f.getD 1 0 = data.getD 1 0 ∧
    f.getD 2 0 = data.getD 2 0 ∧
    s.getD 0 0 = data.getD 0 0 ∧ s.getD 1 0 = data.getD 1 0 ∧
    s.getD 2 0 = data.getD 2 0 := by
  obtain ⟨mid, hm5, hmle, hfe, hse⟩ := fragmentate_some data f s hfs
  obtain ⟨m2, rfl⟩ : ∃ m2, mid = 5 + m2 := ⟨mid - 5, by omega⟩
  simp only [Nat.add_sub_cancel_left] at hfe
  have htlen : (data.take (5 + m2)).length = 5 + m2 := by
    simp only [List.length_take]
    exact Nat.min_eq_left hmle
  have hflen : f.length = 5 + m2 := by
    rw [hfe]
    simp only [List.length_set]
    exact htlen
  have hslen : s.length = 5 + (data.length - (5 + m2)) := by
    rw [hse]
    simp only [List.length_cons, List.length_drop]
    omega
  refine ⟨?_, ?_, ?_, ?_, ?_, ?_, ?_, ?_, ?_⟩
  · rw [hfe, hse]
    rw [drop_of_set_lt _ 4 _ 5 (by omega), drop_of_set_lt _ 3 _ 5 (by omega)]
    show List.drop 5 (List.take (5 + m2) data) ++ List.drop (5 + m2) data =
      List.drop 5 data
    rw [List.drop_take]
    simp only [Nat.add_sub_cancel_left]
    exact List.drop_take_append_drop data 5 m2
  · have h3 : f.getD 3 0 = m2 % 65536 / 256 := by
      rw [hfe, getD_set_ne _ 4 3 _ _ (by omega),
        getD_set_self_of_lt _ 3 _ _ (by omega)]
    have h4 : f.getD 4 0 = m2 % 65536 % 256 := by
      rw [hfe, getD_set_self_of_lt _ 4 _ _ (by simp only [List.length_set]; omega)]
    rw [h3, h4, hflen]
    rw [hflen] at hF
    omega
  · rw [hse, List.getD_cons_succ, List.getD_cons_succ, List.getD_cons_succ,
      List.getD_cons_zero, List.getD_cons_succ, List.getD_cons_succ,
      List.getD_cons_succ, List.getD_cons_succ, List.getD_cons_zero]
    simp only [List.length_cons, List.length_drop]
    rw [hslen] at hS
    omega
  · rw [hfe, getD_set_ne _ 4 0 _ _ (by omega), getD_set_ne _ 3 0 _ _ (by omega),
      getD_take_of_lt _ _ _ _ (by omega)]
  · rw [hfe, getD_set_ne _ 4 1 _ _ (by omega), getD_set_ne _ 3 1 _ _ (by omega),
      getD_take_of_lt _ _ _ _ (by omega)]
  · rw [hfe, getD_set_ne _ 4 2 _ _ (by omega), getD_set_ne _ 3 2 _ _ (by omega),
      getD_take_of_lt _ _ _ _ (by omega)]
  · rw [hse, List.getD_cons_zero]
  · rw [hse, List.getD_cons_succ, List.getD_cons_zero]
  · rw [hse, List.getD_cons_succ, List.getD_cons_succ, List.getD_cons_zero]

/-- Witness for C3's amended theorem on the concrete extension-free hello
record and its two fragments. -/
theorem c3_split_preserves_payload_w :
    (5 < helloNoExt.length ∧ helloNoExt.getD 0 0 = 0x16 ∧
      helloNoExt.getD 5 0 = 0x01 ∧
      fragmentate helloNoExt = some (helloNoExtFirst, helloNoExtSecond) ∧
      helloNoExtFirst.length - 5 < 65536 ∧
      helloNoExtSecond.length - 5 < 65536) ∧
    (helloNoExtFirst.drop 5 ++ helloNoExtSecond.drop 5 = helloNoExt.drop 5 ∧
      helloNoExtFirst.getD 3 0 * 256 + helloNoExtFirst.getD 4 0 =
        helloNoExtFirst.length - 5 ∧
      helloNoExtSecond.getD 3 0 * 256 + helloNoExtSecond.getD 4 0 =
        helloNoExtSecond.length - 5 ∧
      helloNoExtFirst.getD 0 0 = helloNoExt.getD 0 0 ∧
      helloNoExtFirst.getD 1 0 = helloNoExt.getD 1 0 ∧
      helloNoExtFirst.getD 2 0 = helloNoExt.getD 2 0 ∧
      helloNoExtSecond.getD 0 0 = helloNoExt.getD 0 0 ∧
      helloNoExtSecond.getD 1 0 = helloNoExt.getD 1 0 ∧
      helloNoExtSecond.getD 2 0 = helloNoExt.getD 2 0) :=
  ⟨⟨by decide, by decide, by decide, by decide, by decide, by decide⟩,
   c3_split_preserves_payload helloNoExt helloNoExtFirst helloNoExtSecond
     (by decide) (by decide) (by decide) (by decide) (by decide) (by decide)⟩

end DetourModel
